import Mathlib

/-!
Verification of the IPC security boundary of an Electron starter template.

The embedding below models, shallowly:
* JavaScript runtime values crossing the boundary (`JSValue`, `JSNum`);
* the validators and bridge functions of the preload script
  (`isValidString`, `isValidNumber`, `isValidPath`, `processData`, `readFile`,
  `onNotification`), from `src/preload.ts`;
* the main-process IPC handlers (`processDataHandler`, `readFileHandler`),
  from `src/main.ts`;
* the filesystem primitive (`FileSystem`) and the event-listener registry of
  the messaging primitive, as environments the handlers interact with.

JavaScript strings are modelled as Lean `String` (length = number of code
units; all inputs of interest are ASCII, where the two notions coincide).
JavaScript numbers are modelled as `JSNum`: NaN, the two infinities, or a
finite value represented exactly as a rational.
-/

/-- A JavaScript number: NaN, +Infinity / -Infinity, or a finite value. -/
inductive JSNum where
  | nan : JSNum
  | inf (positive : Bool) : JSNum
  | finite (q : ℚ) : JSNum
deriving DecidableEq, Repr

/-- JavaScript strict less-than `a < b` (false whenever either side is NaN). -/
def JSNum.jsLt : JSNum → JSNum → Bool
  | .nan, _ => false
  | _, .nan => false
  | .finite a, .finite b => decide (a < b)
  | .inf false, .inf false => false
  | .inf false, _ => true
  | _, .inf false => false
  | .finite _, .inf true => true
  | .inf true, _ => false

/-- `Number.isInteger`: true exactly for finite values with denominator 1. -/
def JSNum.isInteger : JSNum → Bool
  | .finite q => q.den == 1
  | _ => false

/-- The natural-number value of a JavaScript number already known to be a
nonnegative integer (used only after the validation of the handler passed). -/
def JSNum.toNatValue : JSNum → ℕ
  | .finite q => q.num.toNat
  | _ => 0

/-- A JavaScript value as it can arrive over the IPC channel or be passed by
untrusted renderer code: string, number, null, undefined, or an object
(modelled as an association list of named fields). -/
inductive JSValue where
  | str (s : String) : JSValue
  | num (n : JSNum) : JSValue
  | nullV : JSValue
  | jsUndefined : JSValue
  | obj (fields : List (String × JSValue)) : JSValue
deriving Repr

/-- JavaScript property access `v.name`: a field of an object, `undefined`
otherwise (the handlers only access fields after an object-type check). -/
def getField (v : JSValue) (name : String) : JSValue :=
  match v with
  | .obj fields => (fields.lookup name).getD .jsUndefined
  | _ => .jsUndefined

/-- Core of `String.prototype.includes`: does `pat` occur in `s` as a
contiguous subsequence? -/
def includesCore : List Char → List Char → Bool
  | s, pat =>
    match s with
    | [] => pat.isEmpty
    | c :: rest => (pat.isPrefixOf (c :: rest)) || includesCore rest pat

/-- JavaScript `s.includes(pat)`. -/
def jsIncludes (s pat : String) : Bool :=
  includesCore s.data pat.data

/-- Node `path.isAbsolute` for POSIX paths: the path starts with `/`. -/
def isAbsolute (s : String) : Bool :=
  match s.data with
  | [] => false
  | c :: _ => c == '/'

/-- The NUL character as a one-character string (JavaScript `\0`). -/
def nulString : String := String.mk [Char.ofNat 0]

/-!
Preload-side validators (`src/preload.ts`, `const validators = ...`).
Each takes an `unknown` value; the `typeof` check is the match on the
constructor.
-/

/-- `validators.isValidString(value, maxLength)`: the value is a string and
`value.length <= maxLength`. -/
def isValidString (value : JSValue) (maxLength : ℕ) : Bool :=
  match value with
  | .str s => decide (s.length ≤ maxLength)
  | _ => false

/-- `validators.isValidNumber(value, min, max)`: the value is a number, not
NaN, finite, and `value >= min && value <= max`.  NaN fails the `!isNaN`
conjunct and the infinities fail `isFinite`, so the range test-runs on finite
values only.  Note there is no integrality test here. -/
def isValidNumber (value : JSValue) (lo hi : ℚ) : Bool :=
  match value with
  | .num (.finite q) => decide (lo ≤ q) && decide (q ≤ hi)
  | .num _ => false
  | _ => false

/-- `validators.isValidPath(value)`: the value is a string, nonempty,
`value.length < 4096` (strict), and does not contain the NUL character. -/
def isValidPath (value : JSValue) : Bool :=
  match value with
  | .str s =>
    decide (0 < s.length) && decide (s.length < 4096) && !(jsIncludes s nulString)
  | _ => false

/-- A message the Bridge Layer sends over the channel: a channel identifier
plus the payload (`ipcRenderer.invoke(channel, payload)`). -/
structure Invocation where
  channel : String
  payload : JSValue
deriving Repr

/-- The messages a bridge call put on the channel: none when it threw before
touching the channel (`error`), exactly one otherwise (`ok`). -/
def sentInvocations {α : Type} : Except String α → List α
  | .ok inv => [inv]
  | .error _ => []

/-- Bridge method `processData` (`src/preload.ts`): validates the `text` and
`count` fields of the payload synchronously, throwing before any channel use
on violation, then forwards the data on the fixed channel `process-data`. -/
def processData (data : JSValue) : Except String Invocation :=
  if !(isValidString (getField data "text") 1000) then
    .error "Invalid text field: must be a string with max 1000 characters"
  else if !(isValidNumber (getField data "count") 0 100) then
    .error "Invalid count field: must be a number between 0 and 100"
  else
    .ok ⟨"process-data", data⟩

/-- Bridge method `readFile` (`src/preload.ts`): validates the path, then
checks for a traversal sequence, then forwards on the fixed channel
`read-file`.  The final catch-all arm is unreachable: `isValidPath` is false
for every non-string, so control only reaches the traversal test on a string
(in the source, the type guard of the validator establishes the same). -/
def readFile (filePath : JSValue) : Except String Invocation :=
  if !(isValidPath filePath) then
    .error "Invalid file path"
  else
    match filePath with
    | .str s =>
      if jsIncludes s ".." then
        .error "Path traversal detected"
      else
        .ok ⟨"read-file", filePath⟩
    | _ => .error "Invalid file path"

/-!
Host-side IPC handlers (`src/main.ts`).  The `process-data` handler takes the
payload and the current clock value (`Date.now()` is passed explicitly); the
`read-file` handler takes the filesystem as an explicit environment and
returns, besides its result, the trace of filesystem calls it performed.
-/

/-- Output of the `process-data` handler. -/
structure ProcessedOutput where
  processed : String
  timestamp : ℤ
deriving DecidableEq, Repr

/-- JavaScript `text.repeat(count)` for a nonnegative integer count. -/
def jsRepeat (s : String) : ℕ → String
  | 0 => ""
  | n + 1 => s ++ jsRepeat s n

/-- Host handler for channel `process-data` (from
`ipcMain.handle(...)` in `src/main.ts`): rejects non-object / null payloads,
then an invalid `text` field (not a string, or longer than 1000), then an
invalid `count` field (not a number, or `count < 0 || count > 100`, or not an
integer per `Number.isInteger`); on success returns the object with
`processed = text.repeat(count)` and `timestamp = Date.now()`. -/
def processDataHandler (data : JSValue) (now : ℤ) : Except String ProcessedOutput :=
  match data with
  | .obj _ =>
    match getField data "text" with
    | .str text =>
      if text.length > 1000 then
        .error "Invalid text field"
      else
        match getField data "count" with
        | .num count =>
          if count.jsLt (.finite 0) || (JSNum.finite 100).jsLt count ||
              !count.isInteger then
            .error "Invalid count field"
          else
            .ok ⟨jsRepeat text count.toNatValue, now⟩
        | _ => .error "Invalid count field"
    | _ => .error "Invalid text field"
  | _ => .error "Invalid data format"

/-- Result of `fs.promises.stat`: is the path a regular file, and its size. -/
structure FileStat where
  regular : Bool
  size : ℕ
deriving DecidableEq, Repr

/-- The filesystem as seen by the Host: `stat` and the read primitive either
succeed or reject with the raw system error text (e.g. an ENOENT message
naming the path), exactly what `fs.promises` rejections carry. -/
structure FileSystem where
  statResult : String → Except String FileStat
  readResult : String → Except String String

/-- One filesystem call performed by the `read-file` handler. -/
inductive FsAccess where
  | statCall (path : String) : FsAccess
  | readCall (path : String) : FsAccess
deriving DecidableEq, Repr

/-- `MAX_FILE_SIZE` from the `read-file` handler: 10 MiB. -/
def MAX_FILE_SIZE : ℕ := 10 * 1024 * 1024

/-- Host handler for channel `read-file` (from `ipcMain.handle(...)` in
`src/main.ts`): first the traversal / absoluteness check
(`filePath.includes(..) || !path.isAbsolute(filePath)`), before any
filesystem call; then `stat`; then the regular-file check; then the size
ceiling; then the read.  The catch block in the source logs the error
Host-side and rethrows it unchanged (`console.error(...); throw error;`), so
every failure from `stat` or the read propagates to the caller verbatim, as
do the messages the handler itself throws.  The second component is the
trace of filesystem calls. -/
def readFileHandler (fs : FileSystem) (filePath : String) :
    Except String String × List FsAccess :=
  if jsIncludes filePath ".." || !(isAbsolute filePath) then
    (.error "Invalid file path", [])
  else
    match fs.statResult filePath with
    | .error e => (.error e, [.statCall filePath])
    | .ok stats =>
      if !stats.regular then
        (.error "Path is not a file", [.statCall filePath])
      else if stats.size > MAX_FILE_SIZE then
        (.error "File too large", [.statCall filePath])
      else
        match fs.readResult filePath with
        | .error e => (.error e, [.statCall filePath, .readCall filePath])
        | .ok content => (.ok content, [.statCall filePath, .readCall filePath])

/-!
The capability surface (`contextBridge.exposeInMainWorld` in
`src/preload.ts`).  The exposed object is a fixed literal with exactly six
methods; it is published once, before untrusted code runs, and the embedding
is a constant.  For each method, `methodChannels` gives the channel
identifiers the method can touch for a given input: each request method
invokes one hard-coded channel (or none, when its validation throws first),
and the subscription method listens on the hard-coded `notification` channel.
No method receives a channel name from its caller.
-/

/-- The six methods of the `electronAPI` object, in source order. -/
inductive APIMethod where
  | getAppVersion : APIMethod
  | ping : APIMethod
  | processData : APIMethod
  | showOpenDialog : APIMethod
  | readFile : APIMethod
  | onNotification : APIMethod
deriving DecidableEq, Repr

/-- The published capability surface: method name, as seen by the renderer,
to method. -/
def electronAPI : List (String × APIMethod) :=
  [("getAppVersion", .getAppVersion),
   ("ping", .ping),
   ("processData", .processData),
   ("showOpenDialog", .showOpenDialog),
   ("readFile", .readFile),
   ("onNotification", .onNotification)]

/-- The channel identifiers a method can touch, given the input of the
caller.  `getAppVersion`, `ping` and `showOpenDialog` invoke their fixed
channel unconditionally; `processData` and `readFile` invoke theirs only
when validation passes; `onNotification` subscribes to `notification`. -/
def methodChannels : APIMethod → JSValue → List String
  | .getAppVersion, _ => ["get-app-version"]
  | .ping, _ => ["ping"]
  | .processData, d => (sentInvocations (processData d)).map Invocation.channel
  | .showOpenDialog, _ => ["show-open-dialog"]
  | .readFile, p => (sentInvocations (readFile p)).map Invocation.channel
  | .onNotification, _ => ["notification"]

/-- The channels the design fixes at build time: the five request/response
channels registered by the Host plus the one push-event channel. -/
def fixedChannels : List String :=
  ["get-app-version", "ping", "process-data", "show-open-dialog", "read-file",
   "notification"]

/-!
Event subscription (`onNotification`, `src/preload.ts`).  The listener
registry of the messaging primitive is modelled as a list of listener
identities: `ipcRenderer.on` appends a listener,
`ipcRenderer.removeListener` removes one occurrence of the given listener if
present and is a no-op otherwise (it never throws).  Each `onNotification`
call creates a fresh wrapper closure (`safeCallback`), so its identity is
not already in the registry.
-/

/-- `ipcRenderer.on(channel, listener)` on the `notification` registry. -/
def listenerOn (registry : List ℕ) (listener : ℕ) : List ℕ :=
  registry ++ [listener]

/-- `ipcRenderer.removeListener(channel, listener)` on the `notification`
registry: removes one occurrence if present, otherwise leaves the registry
unchanged; never throws. -/
def listenerRemove (registry : List ℕ) (listener : ℕ) : List ℕ :=
  registry.erase listener

/-- Bridge method `onNotification`: installs a fresh wrapped listener and
returns the new registry together with the detach function, which removes
exactly that wrapped listener. -/
def onNotification (registry : List ℕ) (freshListener : ℕ) :
    List ℕ × (List ℕ → List ℕ) :=
  (listenerOn registry freshListener, fun st => listenerRemove st freshListener)

/-!
Claim-side fixtures: the payload shape of the bounded text transform, the
spec predicate for a valid count, and concrete filesystems and inputs used
by counterexamples and witnesses.
-/

/-- The payload of the bounded text transform: an object with a `text` field
and a `count` field, as in the spec table. -/
def pdInput (text : String) (c : JSValue) : JSValue :=
  .obj [("text", .str text), ("count", c)]

/-- Spec predicate: the count value is an integer within 0..100 (the spec
table declares the count as integer 0..100). -/
def isValidCount (c : JSValue) : Bool :=
  match c with
  | .num (.finite q) => q.den == 1 && decide (0 ≤ q) && decide (q ≤ 100)
  | _ => false

/-- Did a call succeed? -/
def isOkResult {α : Type} : Except String α → Bool
  | .ok _ => true
  | .error _ => false

/-- A finite, in-range, non-integer count: one half. -/
def halfCount : JSValue := .num (.finite (mkRat 1 2))

/-- A raw system error text as `fs.promises.stat` rejects with when a file is
missing; note it names the requested path. -/
def enoentMessage : String := "ENOENT: no such file or directory, stat /no/such/file.txt"

/-- A filesystem on which every `stat` and read rejects with the raw ENOENT
error. -/
def fsMissing : FileSystem where
  statResult := fun _ => .error enoentMessage
  readResult := fun _ => .error enoentMessage

/-- A filesystem on which every path is a small regular file. -/
def fsDotFile : FileSystem where
  statResult := fun _ => .ok ⟨true, 5⟩
  readResult := fun _ => .ok "content"

/-- A filesystem with a directory at `/tmp/dir` and an over-ceiling regular
file at `/tmp/big.bin`. -/
def fsLargeDir : FileSystem where
  statResult := fun p =>
    if p = "/tmp/dir" then .ok ⟨false, 0⟩
    else if p = "/tmp/big.bin" then .ok ⟨true, 10 * 1024 * 1024 + 1⟩
    else .error "ENOENT"
  readResult := fun _ => .ok "data"

/-- A 1001-character text, one past the declared maximum. -/
def longText : String := String.mk (List.replicate 1001 'a')

/-- An absolute, traversal-free path of length exactly 4096. -/
def longPath : String := String.mk ('/' :: List.replicate 4095 'a')

/-!
Helper lemmas.
-/

lemma hostCountCheck_eq (n : JSNum) :
    (n.jsLt (.finite 0) || (JSNum.finite 100).jsLt n || !n.isInteger) =
      !(isValidCount (.num n)) := by
  cases n with
  | nan => rfl
  | inf b => cases b <;> rfl
  | finite q =>
    simp only [JSNum.jsLt, JSNum.isInteger, isValidCount]
    by_cases h1 : q < 0 <;> by_cases h2 : (100 : ℚ) < q <;> by_cases h3 : q.den = 1 <;>
      simp [h1, h2, h3, not_lt, le_of_not_lt]

lemma getField_text (text : String) (c : JSValue) :
    getField (pdInput text c) "text" = .str text := rfl

lemma getField_count (text : String) (c : JSValue) :
    getField (pdInput text c) "count" = c := rfl

lemma processDataHandler_pdInput (text : String) (c : JSValue) (now : ℤ) :
    processDataHandler (pdInput text c) now =
      (if text.length > 1000 then .error "Invalid text field"
       else match c with
       | .num count =>
          if count.jsLt (.finite 0) || (JSNum.finite 100).jsLt count ||
              !count.isInteger then
            .error "Invalid count field"
          else
            .ok ⟨jsRepeat text count.toNatValue, now⟩
       | _ => .error "Invalid count field") := rfl

lemma host_rejects_invalid_count (text : String) (c : JSValue) (now : ℤ)
    (htext : text.length ≤ 1000) (hc : isValidCount c = false) :
    processDataHandler (pdInput text c) now = .error "Invalid count field" := by
  rw [processDataHandler_pdInput, if_neg (by omega)]
  cases c with
  | num n =>
    show (if n.jsLt (.finite 0) || (JSNum.finite 100).jsLt n || !n.isInteger then
            (.error "Invalid count field" : Except String ProcessedOutput)
          else .ok ⟨jsRepeat text n.toNatValue, now⟩) = .error "Invalid count field"
    rw [hostCountCheck_eq, hc]
    rfl
  | str s => rfl
  | nullV => rfl
  | jsUndefined => rfl
  | obj f => rfl

lemma bridge_processData_pdInput (text : String) (c : JSValue)
    (htext : text.length ≤ 1000) :
    processData (pdInput text c) =
      (if !(isValidNumber c 0 100) then
        .error "Invalid count field: must be a number between 0 and 100"
       else .ok ⟨"process-data", pdInput text c⟩) := by
  show (if !(isValidString (.str text) 1000) then _ else _) = _
  rw [show isValidString (.str text) 1000 = true from by
    simp [isValidString, htext]]
  rfl

lemma readFile_invalid_path (p : JSValue) (h : isValidPath p = false) :
    readFile p = .error "Invalid file path" := by
  simp [readFile, h]

lemma readFile_ok (s : String) (hv : isValidPath (.str s) = true)
    (htrav : jsIncludes s ".." = false) :
    readFile (.str s) = .ok ⟨"read-file", .str s⟩ := by
  simp [readFile, hv, htrav]

lemma readFile_has_traversal (s : String) (htrav : jsIncludes s ".." = true) :
    ∃ msg, readFile (.str s) = .error msg := by
  cases hv : isValidPath (JSValue.str s) with
  | false => exact ⟨"Invalid file path", readFile_invalid_path _ hv⟩
  | true => exact ⟨"Path traversal detected", by simp [readFile, hv, htrav]⟩

lemma readFileHandler_traversal (fs : FileSystem) (s : String)
    (h : jsIncludes s ".." = true) :
    readFileHandler fs s = (.error "Invalid file path", []) := by
  simp [readFileHandler, h]

lemma processData_channel (d : JSValue) (inv : Invocation)
    (h : processData d = .ok inv) : inv.channel = "process-data" := by
  unfold processData at h
  split at h
  · exact absurd h (by simp)
  · split at h
    · exact absurd h (by simp)
    · cases h
      rfl

lemma readFile_channel (p : JSValue) (inv : Invocation)
    (h : readFile p = .ok inv) : inv.channel = "read-file" := by
  unfold readFile at h
  split at h
  · exact absurd h (by simp)
  · cases p with
    | str s =>
      simp only at h
      split at h
      · exact absurd h (by simp)
      · cases h
        rfl
    | num n => exact absurd h (by simp)
    | nullV => exact absurd h (by simp)
    | jsUndefined => exact absurd h (by simp)
    | obj f => exact absurd h (by simp)

lemma longText_length : longText.length = 1001 := by
  show (List.replicate 1001 'a').length = 1001
  rw [List.length_replicate]

lemma includesCore_replicate_a (n : ℕ) :
    includesCore (List.replicate n 'a') ['.', '.'] = false := by
  induction n with
  | zero => rfl
  | succ n ih => simp [List.replicate_succ, includesCore, List.isPrefixOf, ih]

lemma longPath_length : longPath.length = 4096 := by
  show ('/' :: List.replicate 4095 'a').length = 4096
  rw [List.length_cons, List.length_replicate]

lemma longPath_no_traversal : jsIncludes longPath ".." = false := by
  show includesCore ('/' :: List.replicate 4095 'a') ['.', '.'] = false
  rw [show includesCore ('/' :: List.replicate 4095 'a') ['.', '.'] =
      (List.isPrefixOf ['.', '.'] ('/' :: List.replicate 4095 'a') ||
        includesCore (List.replicate 4095 'a') ['.', '.']) from rfl]
  rw [includesCore_replicate_a 4095]
  rfl

lemma longPath_invalid : isValidPath (.str longPath) = false := by
  show (decide (0 < longPath.length) && decide (longPath.length < 4096) &&
    !(jsIncludes longPath nulString)) = false
  rw [longPath_length]
  rfl

/-!
Claim theorems.
-/

/-- Claim C1 (code follows; claim holds of the spec, not of the code): when a
privileged operation inside the `read-file` handler fails after path
validation passed, the handler rethrows the raw error.  At the failing input
`/no/such/file.txt` on a filesystem where `stat` rejects with the raw ENOENT
text, the error reported to the caller is that raw text verbatim, and the
raw text contains the requested file path — the system error detail crosses
the trust boundary instead of a generic sanitized message. -/
theorem spec_c1_raw_error_forwarded :
    (readFileHandler fsMissing "/no/such/file.txt").1 = .error enoentMessage
    ∧ jsIncludes enoentMessage "/no/such/file.txt" = true :=
  ⟨rfl, rfl⟩

/-- Claim C2, amended: every count that is not an integer in 0..100 is
rejected by the Host handler with the count error; the Bridge Layer rejects
such a count if and only if it also fails `isValidNumber` (not a number,
NaN, infinite, or out of range) — a finite non-integer within the range
passes the Bridge and is forwarded, so the two layers do not reject
identical sets. -/
theorem spec_c2_amended (text : String) (c : JSValue) (now : ℤ)
    (htext : text.length ≤ 1000) (hc : isValidCount c = false) :
    processDataHandler (pdInput text c) now = .error "Invalid count field"
    ∧ (isValidNumber c 0 100 = false →
        processData (pdInput text c) =
          .error "Invalid count field: must be a number between 0 and 100"
        ∧ sentInvocations (processData (pdInput text c)) = ([] : List Invocation))
    ∧ (isValidNumber c 0 100 = true →
        processData (pdInput text c) = .ok ⟨"process-data", pdInput text c⟩) := by
  refine ⟨host_rejects_invalid_count text c now htext hc, ?_, ?_⟩
  · intro hn
    have he : processData (pdInput text c) =
        .error "Invalid count field: must be a number between 0 and 100" := by
      rw [bridge_processData_pdInput text c htext, hn]
      rfl
    exact ⟨he, by rw [he]; rfl⟩
  · intro hn
    rw [bridge_processData_pdInput text c htext, hn]
    rfl

/-- Witness for C2 amended: NaN as count, rejected by the Host. -/
theorem spec_c2_witness :
    ("Hello".length ≤ 1000 ∧ isValidCount (.num .nan) = false)
    ∧ processDataHandler (pdInput "Hello" (.num .nan)) 0 =
        .error "Invalid count field" :=
  ⟨⟨by decide, rfl⟩, (spec_c2_amended "Hello" (.num .nan) 0 (by decide) rfl).1⟩

/-- Counterexample to C2 as stated: the count one half is not an integer,
yet the Bridge Layer accepts it and forwards the request (only the Host
rejects it), so the two layers do not independently reject the same invalid
set. -/
theorem spec_c2_counterexample :
    isValidCount halfCount = false
    ∧ isValidNumber halfCount 0 100 = true
    ∧ processData (pdInput "Hello" halfCount) =
        .ok ⟨"process-data", pdInput "Hello" halfCount⟩
    ∧ processDataHandler (pdInput "Hello" halfCount) 0 =
        .error "Invalid count field" :=
  ⟨rfl, rfl, rfl, rfl⟩

/-- Claim C3: the capability surface published to the renderer consists of
exactly the six fixed methods, in source order, and every channel any method
can touch — for every caller-supplied input — is one of the six build-time
channel identifiers; no method passes a caller-chosen channel to the raw
messaging primitive. -/
theorem spec_c3 :
    electronAPI.map Prod.fst =
      ["getAppVersion", "ping", "processData", "showOpenDialog", "readFile",
       "onNotification"]
    ∧ ∀ entry ∈ electronAPI, ∀ input : JSValue, ∀ ch ∈ methodChannels entry.2 input,
        ch ∈ fixedChannels := by
  refine ⟨rfl, ?_⟩
  intro entry hentry input ch hch
  simp only [electronAPI, List.mem_cons, List.not_mem_nil, or_false] at hentry
  rcases hentry with h | h | h | h | h | h <;> subst h <;>
    simp only [methodChannels] at hch
  · simp only [List.mem_singleton] at hch; subst hch; simp [fixedChannels]
  · simp only [List.mem_singleton] at hch; subst hch; simp [fixedChannels]
  · cases hp : processData input with
    | error e => rw [hp] at hch; simp [sentInvocations] at hch
    | ok inv =>
      rw [hp] at hch
      simp only [sentInvocations, List.map_cons, List.map_nil,
        List.mem_singleton] at hch
      subst hch
      rw [processData_channel input inv hp]
      simp [fixedChannels]
  · simp only [List.mem_singleton] at hch; subst hch; simp [fixedChannels]
  · cases hp : readFile input with
    | error e => rw [hp] at hch; simp [sentInvocations] at hch
    | ok inv =>
      rw [hp] at hch
      simp only [sentInvocations, List.map_cons, List.map_nil,
        List.mem_singleton] at hch
      subst hch
      rw [readFile_channel input inv hp]
      simp [fixedChannels]
  · simp only [List.mem_singleton] at hch; subst hch; simp [fixedChannels]

/-- Witness for C3: the `readFile` method on a concrete path touches only
the fixed `read-file` channel. -/
theorem spec_c3_witness :
    ("readFile", APIMethod.readFile) ∈ electronAPI
    ∧ "read-file" ∈ methodChannels APIMethod.readFile (.str "/tmp/ok.txt")
    ∧ "read-file" ∈ fixedChannels :=
  ⟨by simp [electronAPI],
    by rw [show methodChannels APIMethod.readFile (.str "/tmp/ok.txt") =
        ["read-file"] from rfl]; simp,
    spec_c3.2 ("readFile", APIMethod.readFile) (by simp [electronAPI])
      (.str "/tmp/ok.txt") "read-file"
      (by rw [show methodChannels APIMethod.readFile (.str "/tmp/ok.txt") =
        ["read-file"] from rfl]; simp)⟩

/-- Claim C4: for every text of length at most 1000 and every integer count
in 0..100, the `process-data` handler succeeds and returns the text repeated
count times together with the integer timestamp. -/
theorem spec_c4 (text : String) (n : ℕ) (now : ℤ)
    (htext : text.length ≤ 1000) (hn : n ≤ 100) :
    processDataHandler (pdInput text (.num (.finite (n : ℚ)))) now =
      .ok ⟨jsRepeat text n, now⟩ := by
  rw [processDataHandler_pdInput, if_neg (by omega)]
  show (if (JSNum.finite (n : ℚ)).jsLt (.finite 0) ||
          (JSNum.finite 100).jsLt (.finite (n : ℚ)) ||
          !(JSNum.finite (n : ℚ)).isInteger then
        (.error "Invalid count field" : Except String ProcessedOutput)
      else .ok ⟨jsRepeat text (JSNum.finite (n : ℚ)).toNatValue, now⟩) =
      .ok ⟨jsRepeat text n, now⟩
  have h1 : (JSNum.finite (n : ℚ)).jsLt (.finite 0) = false := by
    simp [JSNum.jsLt, not_lt]
  have h2 : (JSNum.finite 100).jsLt (.finite (n : ℚ)) = false := by
    simp only [JSNum.jsLt, decide_eq_false_iff_not, not_lt]
    exact_mod_cast hn
  have h3 : (JSNum.finite (n : ℚ)).isInteger = true := by
    simp [JSNum.isInteger, Rat.den_natCast]
  have h4 : (JSNum.finite (n : ℚ)).toNatValue = n := by
    simp [JSNum.toNatValue, Rat.num_natCast]
  rw [h1, h2, h3, h4]
  rfl

/-- Witness for C4: the concrete scenario — text Hello and count 3 yield
HelloHelloHello. -/
theorem spec_c4_witness :
    ("Hello".length ≤ 1000 ∧ (3 : ℕ) ≤ 100)
    ∧ processDataHandler (pdInput "Hello" (.num (.finite ((3 : ℕ) : ℚ)))) 0 =
        .ok ⟨"HelloHelloHello", 0⟩ :=
  ⟨⟨by decide, by decide⟩, by
    rw [spec_c4 "Hello" 3 0 (by decide) (by decide)]
    rfl⟩

/-- Claim C5: for every path containing a traversal sequence, the bridge
`readFile` throws before sending any message over the channel, and the Host
handler rejects the path with no filesystem call at all (the traversal check
precedes both `stat` and the read). -/
theorem spec_c5 (fs : FileSystem) (s : String) (h : jsIncludes s ".." = true) :
    (∃ msg, readFile (.str s) = .error msg)
    ∧ sentInvocations (readFile (.str s)) = ([] : List Invocation)
    ∧ readFileHandler fs s = (.error "Invalid file path", ([] : List FsAccess)) := by
  obtain ⟨msg, hmsg⟩ := readFile_has_traversal s h
  exact ⟨⟨msg, hmsg⟩, by rw [hmsg]; rfl, readFileHandler_traversal fs s h⟩

/-- Witness for C5: a relative traversal path performs no filesystem call. -/
theorem spec_c5_witness :
    jsIncludes "../etc/passwd" ".." = true
    ∧ readFileHandler fsDotFile "../etc/passwd" =
        (.error "Invalid file path", ([] : List FsAccess)) :=
  ⟨rfl, (spec_c5 fsDotFile "../etc/passwd" rfl).2.2⟩

/-- Claim C6: for every payload whose text field is longer than 1000
characters, the bridge `processData` throws the text validation error before
any message is sent over the channel, so the Host is never contacted. -/
theorem spec_c6 (data : JSValue) (s : String)
    (hfield : getField data "text" = .str s) (hlong : 1000 < s.length) :
    processData data =
      .error "Invalid text field: must be a string with max 1000 characters"
    ∧ sentInvocations (processData data) = ([] : List Invocation) := by
  have hv : isValidString (getField data "text") 1000 = false := by
    rw [hfield]
    simp [isValidString]
    omega
  have he : processData data =
      .error "Invalid text field: must be a string with max 1000 characters" := by
    unfold processData
    rw [hv]
    rfl
  exact ⟨he, by rw [he]; rfl⟩

/-- Witness for C6: a 1001-character text is rejected at the Bridge Layer. -/
theorem spec_c6_witness :
    (getField (pdInput longText (.num (.finite 1))) "text" = .str longText
      ∧ 1000 < longText.length)
    ∧ processData (pdInput longText (.num (.finite 1))) =
        .error "Invalid text field: must be a string with max 1000 characters" :=
  ⟨⟨rfl, by rw [longText_length]; omega⟩,
    (spec_c6 (pdInput longText (.num (.finite 1))) longText rfl
      (by rw [longText_length]; omega)).1⟩

/-- Claim C7, amended: the bridge path validation accepts — and forwards on
the `read-file` channel — every path that is absolute, free of traversal
sequences, nonempty, of length strictly less than 4096 (i.e. at most 4095
characters, not 4096 as the spec table says), and free of NUL characters. -/
theorem spec_c7_amended (s : String)
    (habs : isAbsolute s = true) (htrav : jsIncludes s ".." = false)
    (hpos : 0 < s.length) (hlen : s.length < 4096)
    (hnul : jsIncludes s nulString = false) :
    readFile (.str s) = .ok ⟨"read-file", .str s⟩ := by
  have hv : isValidPath (.str s) = true := by
    show (decide (0 < s.length) && decide (s.length < 4096) &&
      !(jsIncludes s nulString)) = true
    rw [hnul]
    simp [hpos, hlen]
  exact readFile_ok s hv htrav

/-- Witness for C7 amended: a short absolute path is accepted and
forwarded. -/
theorem spec_c7_witness :
    (isAbsolute "/tmp/ok.txt" = true ∧ jsIncludes "/tmp/ok.txt" ".." = false
      ∧ 0 < "/tmp/ok.txt".length ∧ "/tmp/ok.txt".length < 4096
      ∧ jsIncludes "/tmp/ok.txt" nulString = false)
    ∧ readFile (.str "/tmp/ok.txt") = .ok ⟨"read-file", .str "/tmp/ok.txt"⟩ :=
  ⟨⟨rfl, rfl, by decide, by decide, rfl⟩,
    spec_c7_amended "/tmp/ok.txt" rfl rfl (by decide) (by decide) rfl⟩

/-- Counterexample to C7 as stated: an absolute, traversal-free path of
length exactly 4096 — within the declared bound of at most 4096 characters —
is rejected by the bridge validation, because the source tests
`value.length < 4096` strictly. -/
theorem spec_c7_counterexample :
    isAbsolute longPath = true
    ∧ jsIncludes longPath ".." = false
    ∧ longPath.length = 4096
    ∧ readFile (.str longPath) = .error "Invalid file path" :=
  ⟨rfl, longPath_no_traversal, longPath_length,
    readFile_invalid_path _ longPath_invalid⟩

/-- Claim C8: for every validated path, the handler returns contents exactly
when `stat` succeeded with a regular file of size at most the 10 MiB
ceiling and the read returned those contents; and whenever `stat` reports a
non-regular file or a size over the ceiling, the call fails and no contents
are returned. -/
theorem spec_c8 (fs : FileSystem) (s : String)
    (htrav : jsIncludes s ".." = false) (habs : isAbsolute s = true) :
    (∀ content, (readFileHandler fs s).1 = .ok content →
      ∃ st, fs.statResult s = .ok st ∧ st.regular = true ∧ st.size ≤ MAX_FILE_SIZE ∧
        fs.readResult s = .ok content)
    ∧ (∀ st, fs.statResult s = .ok st →
        (st.regular = false ∨ MAX_FILE_SIZE < st.size) →
        isOkResult (readFileHandler fs s).1 = false) := by
  have hcond : (jsIncludes s ".." || !(isAbsolute s)) = false := by
    rw [htrav, habs]; rfl
  constructor
  · intro content hok
    unfold readFileHandler at hok
    rw [hcond] at hok
    simp only [Bool.false_eq_true, if_false] at hok
    cases hst : fs.statResult s with
    | error e => simp only [hst] at hok; simp at hok
    | ok st =>
      simp only [hst] at hok
      by_cases hreg : st.regular = true
      · simp only [hreg, Bool.not_true, Bool.false_eq_true, if_false] at hok
        by_cases hsize : st.size > MAX_FILE_SIZE
        · rw [if_pos hsize] at hok; simp at hok
        · rw [if_neg hsize] at hok
          cases hread : fs.readResult s with
          | error e => simp only [hread] at hok; simp at hok
          | ok c =>
            simp only [hread] at hok
            cases hok
            exact ⟨st, rfl, hreg, by omega, by simp [hread]⟩
      · rw [Bool.not_eq_true] at hreg
        simp only [hreg, Bool.not_false, if_true] at hok
        simp at hok
  · intro st hst hbad
    unfold readFileHandler
    rw [hcond]
    simp only [Bool.false_eq_true, if_false, hst]
    rcases hbad with hreg | hsize
    · simp only [hreg, Bool.not_false, if_true]
      rfl
    · cases hreg : st.regular with
      | false =>
        simp only [hreg, Bool.not_false, if_true]
        rfl
      | true =>
        simp only [hreg, Bool.not_true, Bool.false_eq_true, if_false]
        rw [if_pos (by omega)]
        rfl

/-- Witness for C8: a directory path fails the call even though `stat`
succeeds. -/
theorem spec_c8_witness :
    (jsIncludes "/tmp/dir" ".." = false ∧ isAbsolute "/tmp/dir" = true
      ∧ fsLargeDir.statResult "/tmp/dir" = .ok ⟨false, 0⟩)
    ∧ isOkResult (readFileHandler fsLargeDir "/tmp/dir").1 = false :=
  ⟨⟨rfl, rfl, rfl⟩,
    (spec_c8 fsLargeDir "/tmp/dir" rfl rfl).2 ⟨false, 0⟩ rfl (Or.inl rfl)⟩

/-- Claim C9: for every subscription installed by `onNotification` with a
fresh wrapped listener, the returned detach function removes exactly that
listener (restoring the registry), and detaching a second time is a no-op
that leaves the state unchanged — detach composed with detach equals one
detach, and detach never throws (it is a total function). -/
theorem spec_c9 (registry : List ℕ) (freshListener : ℕ)
    (hfresh : freshListener ∉ registry) :
    (onNotification registry freshListener).2 (onNotification registry freshListener).1 = registry
    ∧ (onNotification registry freshListener).2
        ((onNotification registry freshListener).2 (onNotification registry freshListener).1) =
      (onNotification registry freshListener).2 (onNotification registry freshListener).1 := by
  have h1 : listenerRemove (listenerOn registry freshListener) freshListener = registry := by
    unfold listenerOn listenerRemove
    rw [List.erase_append_right _ hfresh, List.erase_cons_head, List.append_nil]
  have h2 : listenerRemove registry freshListener = registry :=
    List.erase_of_not_mem hfresh
  refine ⟨h1, ?_⟩
  show listenerRemove (listenerRemove (listenerOn registry freshListener) freshListener)
      freshListener = listenerRemove (listenerOn registry freshListener) freshListener
  rw [h1, h2]

/-- Witness for C9: a concrete registry with a fresh listener. -/
theorem spec_c9_witness :
    (3 : ℕ) ∉ ([10, 20] : List ℕ)
    ∧ (onNotification [10, 20] 3).2 (onNotification [10, 20] 3).1 = [10, 20] :=
  ⟨by decide, (spec_c9 [10, 20] 3 (by decide)).1⟩

/-- Claim C10: every path containing two consecutive dots anywhere — with or
without an actual parent-directory traversal — is rejected by both the
bridge `readFile` and the Host handler, so no such file can ever be read
through the capability surface. -/
theorem spec_c10 (fs : FileSystem) (s : String) (h : jsIncludes s ".." = true) :
    isOkResult (readFile (.str s)) = false
    ∧ isOkResult (readFileHandler fs s).1 = false := by
  obtain ⟨msg, hmsg⟩ := readFile_has_traversal s h
  refine ⟨by rw [hmsg]; rfl, ?_⟩
  rw [readFileHandler_traversal fs s h]
  rfl

/-- Witness for C10: the path `/tmp/a..b` has no parent-directory traversal,
names an existing regular file on the witness filesystem, and still fails in
both layers. -/
theorem spec_c10_witness :
    jsIncludes "/tmp/a..b" ".." = true
    ∧ isOkResult (readFile (.str "/tmp/a..b")) = false
    ∧ isOkResult (readFileHandler fsDotFile "/tmp/a..b").1 = false :=
  ⟨rfl, (spec_c10 fsDotFile "/tmp/a..b" rfl).1, (spec_c10 fsDotFile "/tmp/a..b" rfl).2⟩
